import Mathlib

/-!
# Verification of the AutoMedAI agent-orchestration core

Shallow embedding of the repository's orchestration core:

* `app/agents/specialist_agents.py` — the handler classes
  (`GeneralPractitionerAgent`, `EmergencyMedicineAgent`, `CardioBotMock`,
  `NeuroBotMock`, `OrthoBotMock`) and their `query` methods;
* `app/agents/central_agent.py` — `CentralReasoningAgentMock.synthesize_findings`
  and `CentralAgent.query` (the Coordinator), plus handler registration
  (`CentralAgent._initialize_specialist`).

Python dictionaries holding each agent's finding are embedded as a `Finding`
structure whose fields are `Option`s (a missing key is `none`); numeric
confidence literals are only ever stored and printed by the source, never
computed with, so they are embedded as their decimal literal strings.
Mutable per-agent state (`cases_handled`) and the Coordinator's state are
threaded explicitly.  Python string operations used by the source
(`in`, `.lower()`, slicing, `"\n".join`) are embedded as executable
functions on `String`/`List Char`.
-/

namespace AutoMedAI

/-- Python `needle is a prefix of hay` on code-point lists. -/
def isPre : List Char → List Char → Bool
  | [], _ => true
  | _ :: _, [] => false
  | a :: as, b :: bs => a == b && isPre as bs

/-- Python `needle in hay` (substring occurrence) on code-point lists. -/
def occurs (needle : List Char) : List Char → Bool
  | [] => needle.isEmpty
  | c :: t => isPre needle (c :: t) || occurs needle t

/-- Python `sub in s` for strings. -/
def strContains (s sub : String) : Bool :=
  occurs sub.data s.data

/-- ASCII lowering of one code point, as Python `str.lower` acts on the
ASCII strings this program manipulates. -/
def lowerChar (c : Char) : Char :=
  if 'A' ≤ c && c ≤ 'Z' then Char.ofNat (c.toNat + 32) else c

/-- Python `s.lower()` (ASCII fragment). -/
def strLower (s : String) : String :=
  ⟨s.data.map lowerChar⟩

/-- Python `s[:n]` (slicing by code points). -/
def strTake (s : String) (n : Nat) : String :=
  ⟨s.data.take n⟩

/-- Python `sep.join(parts)`. -/
def strJoin (sep : String) : List String → String
  | [] => ""
  | [s] => s
  | s :: rest => s ++ sep ++ strJoin sep rest

/-- One agent's output dictionary for one request.  Every key that any
handler of the source ever emits is a field; `none` embeds a missing key,
matching Python's `dict.get`. -/
structure Finding where
  agent_name : Option String := none
  specialty : Option String := none
  hypothesis : Option String := none
  confidence : Option String := none
  confidence_mock : Option String := none
  details : Option String := none
  recommended_actions : Option (List String) := none
  needs_emergency_care : Option Bool := none
  emergency_response_needed : Option Bool := none
deriving DecidableEq, Repr

/-- The concrete handler classes registered by `CentralAgent.initialize`. -/
inductive AgentClass where
  | generalPractitioner
  | emergencyMedicine
  | cardioBotMock
  | neuroBotMock
  | orthoBotMock
deriving DecidableEq, Repr

/-- One handler instance: its class, its `agent_name`, and its only mutable
state read or written by `query`, the `cases_handled` counter. -/
structure Agent where
  cls : AgentClass
  agent_name : String
  cases_handled : Nat
deriving DecidableEq, Repr

/-- Instantiation (`specialist_class()`): `SpecialistAgent.__init__` names the
instance `f"{specialty.lower()}-{uuid4()[:8]}"` (the fragment is passed in
explicitly here), while the three mock classes use fixed names. -/
def mkAgent (c : AgentClass) (uuidFragment : String) : Agent :=
  match c with
  | .generalPractitioner => ⟨c, "generalpractitioner-" ++ uuidFragment, 0⟩
  | .emergencyMedicine => ⟨c, "emergencymedicine-" ++ uuidFragment, 0⟩
  | .cardioBotMock => ⟨c, "CardioBotMock", 0⟩
  | .neuroBotMock => ⟨c, "NeuroBotMock", 0⟩
  | .orthoBotMock => ⟨c, "OrthoBotMock", 0⟩

/-- `GeneralPractitionerAgent.query`: bumps `cases_handled` and returns the
fixed assessment dictionary (note `needs_emergency_care: False`). -/
def gpQuery (a : Agent) (symptoms : String) : Finding × Agent :=
  ({ agent_name := some a.agent_name,
     specialty := some "GeneralPractitioner",
     hypothesis := some "Initial assessment in progress",
     confidence := some "0.0",
     details := some "Analyzing reported symptoms",
     recommended_actions := some ["Await specialist consultation"],
     needs_emergency_care := some false },
   { a with cases_handled := a.cases_handled + 1 })

/-- `EmergencyMedicineAgent.query`. -/
def emergencyQuery (a : Agent) (symptoms : String) : Finding × Agent :=
  ({ agent_name := some a.agent_name,
     specialty := some "EmergencyMedicine",
     hypothesis := some "Emergency assessment in progress",
     confidence := some "0.0",
     details := some "Evaluating emergency status",
     recommended_actions := some [],
     emergency_response_needed := some false },
   { a with cases_handled := a.cases_handled + 1 })

/-- Hypothesis string built by `CardioBotMock.query`. -/
def cardioHypothesis (symptoms : String) : String :=
  let base := "Mock cardiac assessment for symptoms: '" ++ strTake symptoms 50 ++
    "...'. No immediate red flags detected by mock."
  if strContains (strLower symptoms) "chest pain" then
    base ++ " Noted 'chest pain', further evaluation recommended if real."
  else base

/-- `CardioBotMock.query`. -/
def cardioQuery (a : Agent) (symptoms : String) : Finding × Agent :=
  ({ agent_name := some a.agent_name,
     hypothesis := some (cardioHypothesis symptoms),
     confidence := some "0.3",
     details := some "This is a mock response from CardioBotMock." },
   { a with cases_handled := a.cases_handled + 1 })

/-- Hypothesis string built by `NeuroBotMock.query`. -/
def neuroHypothesis (symptoms : String) : String :=
  let base := "Mock neurological evaluation for symptoms: '" ++ strTake symptoms 50 ++
    "...'. No specific neurological concerns from mock."
  if strContains (strLower symptoms) "headache" then base ++ " Noted 'headache'."
  else if strContains (strLower symptoms) "dizziness" then base ++ " Noted 'dizziness'."
  else base

/-- `NeuroBotMock.query`. -/
def neuroQuery (a : Agent) (symptoms : String) : Finding × Agent :=
  ({ agent_name := some a.agent_name,
     hypothesis := some (neuroHypothesis symptoms),
     confidence := some "0.25",
     details := some "This is a mock response from NeuroBotMock." },
   { a with cases_handled := a.cases_handled + 1 })

/-- Hypothesis string built by `OrthoBotMock.query`. -/
def orthoHypothesis (symptoms : String) : String :=
  let base := "Mock orthopedic check for symptoms: '" ++ strTake symptoms 50 ++ "...'. "
  if strContains (strLower symptoms) "knee pain" || strContains (strLower symptoms) "joint pain" then
    base ++ "Possible musculoskeletal issue noted by mock."
  else
    base ++ "No obvious orthopedic indicators from mock."

/-- `OrthoBotMock.query`. -/
def orthoQuery (a : Agent) (symptoms : String) : Finding × Agent :=
  ({ agent_name := some a.agent_name,
     hypothesis := some (orthoHypothesis symptoms),
     confidence := some "0.2",
     details := some "This is a mock response from OrthoBotMock." },
   { a with cases_handled := a.cases_handled + 1 })

/-- Dynamic dispatch of `query` on the concrete handler class. -/
def agentQuery (a : Agent) (symptoms : String) : Finding × Agent :=
  match a.cls with
  | .generalPractitioner => gpQuery a symptoms
  | .emergencyMedicine => emergencyQuery a symptoms
  | .cardioBotMock => cardioQuery a symptoms
  | .neuroBotMock => neuroQuery a symptoms
  | .orthoBotMock => orthoQuery a symptoms

/-- The three classes the Coordinator fans out to
(`isinstance(agent, (CardioBotMock, NeuroBotMock, OrthoBotMock))`). -/
def isMock (a : Agent) : Bool :=
  match a.cls with
  | .cardioBotMock | .neuroBotMock | .orthoBotMock => true
  | _ => false

/-- `self.specialist_agents[specialist.agent_name] = specialist`: Python dict
assignment on the registry — overwrite in place when the key exists
(keeping its position), append otherwise. -/
def registerAgent (reg : List Agent) (a : Agent) : List Agent :=
  if reg.any (fun b => b.agent_name == a.agent_name) then
    reg.map (fun b => if b.agent_name == a.agent_name then a else b)
  else reg ++ [a]

/-- `CentralAgent._initialize_specialist`: instantiate the class and store it
in the registry keyed by its `agent_name` (setup performs logging only). -/
def registerSpecialist (reg : List Agent) (c : AgentClass) (uuidFragment : String) : List Agent :=
  registerAgent reg (mkAgent c uuidFragment)

/-- The registry built by `CentralAgent.initialize`: GP, EmergencyMedicine,
CardioBotMock, NeuroBotMock, OrthoBotMock, registered in that order
(`u1`, `u2` are the uuid fragments drawn for the two `SpecialistAgent` names). -/
def initRegistry (u1 u2 : String) : List Agent :=
  registerSpecialist (registerSpecialist (registerSpecialist (registerSpecialist
    (registerSpecialist [] .generalPractitioner u1) .emergencyMedicine u2)
    .cardioBotMock "") .neuroBotMock "") .orthoBotMock ""

/-- The shipped registry at one concrete draw of the two uuid fragments. -/
def theRegistry : List Agent :=
  initRegistry "a1b2c3d4" "e5f6a7b8"

/-- `next((agent for agent in values if isinstance(agent, C)), None)` followed
by `agent.query(...)`: query the first registered agent of class `c`,
mutating only that agent's entry; `none` when no such agent is registered. -/
def queryFirstOfClass (reg : List Agent) (c : AgentClass) (s : String) :
    Option (Finding × List Agent) :=
  match reg with
  | [] => none
  | a :: rest =>
    if a.cls == c then
      some ((agentQuery a s).1, (agentQuery a s).2 :: rest)
    else
      (queryFirstOfClass rest c s).map (fun p => (p.1, a :: p.2))

/-- The fan-out loop of `CentralAgent.query` (lines 202-207): query every
registered mock specialist in registration order, collecting their findings
and threading each agent's own state update. -/
def queryMocks (reg : List Agent) (s : String) : List Finding × List Agent :=
  match reg with
  | [] => ([], [])
  | a :: rest =>
    if isMock a then
      ((agentQuery a s).1 :: (queryMocks rest s).1, (agentQuery a s).2 :: (queryMocks rest s).2)
    else
      ((queryMocks rest s).1, a :: (queryMocks rest s).2)

/-- Whether an agent of class `c` is registered. -/
def hasClass (reg : List Agent) (c : AgentClass) : Bool :=
  reg.any (fun a => a.cls == c)

/-- One finding's block of the overall summary
(`synthesize_findings`, lines 51-64): `dict.get` defaults and the
confidence fallback `confidence` → `confidence_mock` → `"N/A"`. -/
def findingBlock (f : Finding) : String :=
  let h_agent_name := f.agent_name.getD "UnknownAgent"
  let h_hypothesis := f.hypothesis.getD "No hypothesis provided."
  let h_confidence :=
    match f.confidence with
    | some c => c
    | none => f.confidence_mock.getD "N/A"
  let h_details := f.details.getD ""
  "\nReport from " ++ h_agent_name ++ ":\n  Hypothesis: " ++ h_hypothesis ++
    "\n  Confidence: " ++ h_confidence ++ "\n  Details: " ++ h_details

/-- The synthesis dictionary returned by
`CentralReasoningAgentMock.synthesize_findings`. -/
structure Synthesis where
  patient_id : String
  overall_summary : String
  consolidated_hypotheses_mock : String
  triage_recommendation_mock : String
  confidence_overall_mock : String
  notes : String
deriving DecidableEq, Repr

/-- `CentralReasoningAgentMock.synthesize_findings`: join the summary parts
with newlines (an explicit no-reports line when the list is empty, one
`findingBlock` per finding otherwise) and pick the triage recommendation by
the CardioBotMock "chest pain" rule (line 70). -/
def synthesize_findings (patient_symptoms : String) (specialist_findings : List Finding)
    (patient_id : String) : Synthesis :=
  let headParts : List String :=
    ["Central Reasoning Mock Summary for Patient ID: " ++ patient_id,
     "Original Symptoms: " ++ patient_symptoms,
     "\n--- Specialist Agent Reports ---"]
  let bodyParts : List String :=
    if specialist_findings.isEmpty then ["No specialist agent reports were provided."]
    else specialist_findings.map findingBlock
  let final_summary := strJoin "\n" (headParts ++ bodyParts)
  let triage_recommendation :=
    if specialist_findings.any (fun f =>
        f.agent_name == some "CardioBotMock" &&
        strContains (strLower (f.hypothesis.getD "")) "chest pain") then
      "Mock Triage: Potential cardiac concern noted. Prioritize human review."
    else
      "Mock Triage: Review by a human telemedicine provider is recommended."
  { patient_id := patient_id,
    overall_summary := final_summary,
    consolidated_hypotheses_mock := "Multiple mock hypotheses - see summary.",
    triage_recommendation_mock := triage_recommendation,
    confidence_overall_mock := "0.1",
    notes := "This is a mock synthesis from Phase 2. LLM reasoning will be added later." }

/-- The final response dictionary of `CentralAgent.query`. -/
structure Report where
  case_id : String
  initial_assessment : Finding
  specialist_assessments : List Finding
  synthesis : Synthesis
  coordinating_agent : String
deriving DecidableEq, Repr

/-- The Coordinator's mutable state touched by `query`
(`self.state` of `CentralAgent` plus the registry it owns). -/
structure CentralState where
  specialist_agents : List Agent
  cases_in_progress : Int
  total_cases_handled : Nat
deriving DecidableEq, Repr

/-- Lines 202-215 of `CentralAgent.query`: fan out to the mock specialists,
then — when the initial assessment's `needs_emergency_care` flag reads true —
look up the `EmergencyMedicineAgent` and, when one is registered, append its
finding; when none is registered the flag is silently ignored. -/
def collectAssessments (initial_assessment : Finding) (reg : List Agent) (symptoms : String) :
    List Finding × List Agent :=
  let mocks := queryMocks reg symptoms
  if initial_assessment.needs_emergency_care.getD false then
    match queryFirstOfClass mocks.2 .emergencyMedicine symptoms with
    | some (ef, reg') => (mocks.1 ++ [ef], reg')
    | none => mocks
  else mocks

/-- `CentralAgent.query` from line 202 on, with the initial assessment as the
value it is at that point: collect the specialist assessments, synthesize,
and build the response dictionary. -/
def centralQueryFrom (initial_assessment : Finding) (reg : List Agent)
    (symptoms patient_id : String) : Report × List Agent :=
  let ca := collectAssessments initial_assessment reg symptoms
  ({ case_id := patient_id,
     initial_assessment := initial_assessment,
     specialist_assessments := ca.1,
     synthesis := synthesize_findings symptoms ca.1 patient_id,
     coordinating_agent := "central-coordinator" }, ca.2)

/-- `CentralAgent.query`: bump `cases_in_progress`; fail with
`ValueError("No General Practitioner agent available")` when no
`GeneralPractitionerAgent` is registered; otherwise run the GP assessment,
the fan-out/escalation/synthesis, and bump `total_cases_handled`.  The
`finally` block decrements `cases_in_progress` on both exit paths, written
here as `+ 1 - 1` on each path. -/
def centralQuery (st : CentralState) (symptoms patient_id : String) :
    Except String Report × CentralState :=
  match queryFirstOfClass st.specialist_agents .generalPractitioner symptoms with
  | none =>
    (Except.error "No General Practitioner agent available",
     { st with cases_in_progress := st.cases_in_progress + 1 - 1 })
  | some (initial_assessment, reg1) =>
    let rr := centralQueryFrom initial_assessment reg1 symptoms patient_id
    (Except.ok rr.1,
     { specialist_agents := rr.2,
       cases_in_progress := st.cases_in_progress + 1 - 1,
       total_cases_handled := st.total_cases_handled + 1 })

/-! ## Helper lemmas -/

theorem strExt : ∀ {s t : String}, s.data = t.data → s = t
  | ⟨_⟩, ⟨_⟩, h => congrArg String.mk h

theorem strData_append (s t : String) : (s ++ t).data = s.data ++ t.data := rfl

theorem strJoin_cons (sep x : String) (l : List String) (h : l ≠ []) :
    strJoin sep (x :: l) = x ++ sep ++ strJoin sep l := by
  cases l with
  | nil => exact absurd rfl h
  | cons y t => rfl

theorem agentQuery_snd (a : Agent) (s : String) :
    (agentQuery a s).2 = { a with cases_handled := a.cases_handled + 1 } := by
  rcases a with ⟨c, n, k⟩
  cases c <;> rfl

theorem agentQuery_gp_flag (a : Agent) (s : String) (h : a.cls = AgentClass.generalPractitioner) :
    (agentQuery a s).1.needs_emergency_care = some false := by
  rcases a with ⟨c, n, k⟩
  cases c <;> simp_all [agentQuery, gpQuery]

theorem agentQuery_emergency_specialty (a : Agent) (s : String)
    (h : a.cls = AgentClass.emergencyMedicine) :
    (agentQuery a s).1.specialty = some "EmergencyMedicine" := by
  rcases a with ⟨c, n, k⟩
  cases c <;> simp_all [agentQuery, emergencyQuery]

theorem agentQuery_mock_specialty (a : Agent) (s : String) (h : isMock a = true) :
    (agentQuery a s).1.specialty = none := by
  rcases a with ⟨c, n, k⟩
  cases c <;> simp_all [agentQuery, isMock, cardioQuery, neuroQuery, orthoQuery]

theorem queryMocks_snd (reg : List Agent) (s : String) :
    (queryMocks reg s).2 =
      reg.map (fun b => if isMock b then { b with cases_handled := b.cases_handled + 1 } else b) := by
  induction reg with
  | nil => rfl
  | cons a rest ih =>
    by_cases h : isMock a = true
    · simp [queryMocks, h, ih, agentQuery_snd]
    · simp [queryMocks, h, ih]

theorem queryMocks_fst_length (reg : List Agent) (s : String) :
    (queryMocks reg s).1.length = reg.countP isMock := by
  induction reg with
  | nil => rfl
  | cons a rest ih =>
    by_cases h : isMock a = true
    · simp [queryMocks, h, ih, List.countP_cons]
    · simp [queryMocks, h, ih, List.countP_cons]

theorem queryMocks_fst_specialty (reg : List Agent) (s : String) :
    ∀ f ∈ (queryMocks reg s).1, f.specialty = none := by
  induction reg with
  | nil => intro f hf; simp [queryMocks] at hf
  | cons a rest ih =>
    intro f hf
    by_cases h : isMock a = true
    · simp only [queryMocks, h, if_pos] at hf
      rcases List.mem_cons.mp hf with hf | hf
      · subst hf; exact agentQuery_mock_specialty a s h
      · exact ih f hf
    · simp only [queryMocks, h] at hf
      simp at hf
      exact ih f hf

theorem hasClass_queryMocks (reg : List Agent) (s : String) (c : AgentClass) :
    hasClass (queryMocks reg s).2 c = hasClass reg c := by
  rw [queryMocks_snd]
  induction reg with
  | nil => rfl
  | cons a rest ih =>
    simp only [List.map_cons, hasClass, List.any_cons] at ih ⊢
    rw [ih]
    by_cases h : isMock a = true <;> simp [h]

theorem queryFirstOfClass_none_iff (reg : List Agent) (c : AgentClass) (s : String) :
    queryFirstOfClass reg c s = none ↔ hasClass reg c = false := by
  induction reg with
  | nil => simp [queryFirstOfClass, hasClass]
  | cons a rest ih =>
    by_cases h : a.cls = c
    · simp [queryFirstOfClass, h, hasClass]
    · have hb : (a.cls == c) = false := by simp [h]
      simp only [queryFirstOfClass, hb, Bool.false_eq_true, if_false, hasClass, List.any_cons,
        Bool.false_or, Option.map_eq_none']
      exact ih

theorem queryFirstOfClass_some_decomp (reg : List Agent) (c : AgentClass) (s : String)
    (f : Finding) (reg' : List Agent)
    (h : queryFirstOfClass reg c s = some (f, reg')) :
    ∃ l1 a l2, reg = l1 ++ a :: l2 ∧ a.cls = c ∧ (∀ b ∈ l1, b.cls ≠ c) ∧
      f = (agentQuery a s).1 ∧
      reg' = l1 ++ { a with cases_handled := a.cases_handled + 1 } :: l2 := by
  induction reg generalizing f reg' with
  | nil => simp [queryFirstOfClass] at h
  | cons a rest ih =>
    by_cases hc : a.cls = c
    · have hb : (a.cls == c) = true := by simp [hc]
      simp only [queryFirstOfClass, hb, if_true, Option.some.injEq, Prod.mk.injEq] at h
      obtain ⟨hf, hr⟩ := h
      refine ⟨[], a, rest, by simp, hc, by simp, hf.symm, ?_⟩
      rw [← hr, agentQuery_snd]
      simp
    · have hb : (a.cls == c) = false := by simp [hc]
      simp only [queryFirstOfClass, hb, Bool.false_eq_true, if_false, Option.map_eq_some'] at h
      obtain ⟨⟨g1, g2⟩, hq, hgp⟩ := h
      simp only [Prod.mk.injEq] at hgp
      obtain ⟨hf, hr⟩ := hgp
      obtain ⟨l1, b, l2, e1, e2, e3, e4, e5⟩ := ih g1 g2 hq
      refine ⟨a :: l1, b, l2, by simp [e1], e2, ?_, ?_, ?_⟩
      · intro x hx
        rcases List.mem_cons.mp hx with hx | hx
        · subst hx; exact hc
        · exact e3 x hx
      · rw [← hf]; exact e4
      · rw [← hr, e5]; simp

theorem countP_emergency_mocks (reg : List Agent) (s : String) :
    (queryMocks reg s).1.countP (fun f => f.specialty == some "EmergencyMedicine") = 0 := by
  rw [List.countP_eq_zero]
  intro f hf
  simp [queryMocks_fst_specialty reg s f hf]

theorem collectAssessments_noesc (init : Finding) (reg : List Agent) (s : String)
    (h : (init.needs_emergency_care.getD false && hasClass reg AgentClass.emergencyMedicine) = false) :
    (collectAssessments init reg s).1 = (queryMocks reg s).1 := by
  by_cases hf : init.needs_emergency_care.getD false = true
  · have hc : hasClass reg AgentClass.emergencyMedicine = false := by
      cases hcc : hasClass reg AgentClass.emergencyMedicine
      · rfl
      · rw [hf, hcc] at h
        cases h
    have hq : queryFirstOfClass (queryMocks reg s).2 AgentClass.emergencyMedicine s = none := by
      rw [queryFirstOfClass_none_iff, hasClass_queryMocks]
      exact hc
    simp [collectAssessments, hf, hq]
  · have hf' : init.needs_emergency_care.getD false = false := Bool.eq_false_iff.mpr hf
    simp [collectAssessments, hf']

theorem collectAssessments_esc (init : Finding) (reg : List Agent) (s : String)
    (h : (init.needs_emergency_care.getD false && hasClass reg AgentClass.emergencyMedicine) = true) :
    ∃ a : Agent, a.cls = AgentClass.emergencyMedicine ∧
      (collectAssessments init reg s).1 = (queryMocks reg s).1 ++ [(agentQuery a s).1] := by
  have h' := h
  simp only [Bool.and_eq_true] at h'
  obtain ⟨hf, hc⟩ := h'
  have hc2 : hasClass (queryMocks reg s).2 AgentClass.emergencyMedicine = true := by
    rw [hasClass_queryMocks]
    exact hc
  rcases hq : queryFirstOfClass (queryMocks reg s).2 AgentClass.emergencyMedicine s with _ | ⟨ef, reg'⟩
  · have hnone := (queryFirstOfClass_none_iff _ _ _).mp hq
    simp [hc2] at hnone
  · obtain ⟨l1, a, l2, _, ha, _, hef, _⟩ := queryFirstOfClass_some_decomp _ _ _ _ _ hq
    refine ⟨a, ha, ?_⟩
    simp [collectAssessments, hf, hq, hef]

theorem collectAssessments_length (init : Finding) (reg : List Agent) (s : String) :
    (collectAssessments init reg s).1.length =
      reg.countP isMock +
        if init.needs_emergency_care.getD false && hasClass reg AgentClass.emergencyMedicine
        then 1 else 0 := by
  by_cases h : (init.needs_emergency_care.getD false && hasClass reg AgentClass.emergencyMedicine) = true
  · obtain ⟨a, _, he⟩ := collectAssessments_esc init reg s h
    simp [he, h, queryMocks_fst_length]
  · have h' := Bool.eq_false_iff.mpr h
    rw [collectAssessments_noesc init reg s h']
    simp [h', queryMocks_fst_length]

/-! ## Claims -/

/-- C1: for every request processed through the Coordinator's
assessment-collection code (with the primary assessment as the value it has
at that point), the `EmergencyMedicineAgent` finding — the only finding
carrying `specialty = "EmergencyMedicine"` — occurs in the
specialist-findings list exactly when the primary assessment's
`needs_emergency_care` flag reads true and an `EmergencyMedicineAgent` is
registered; in that case it is appended once at the end; when the flag is
true but no escalation handler is registered, the list is exactly the
parallel mock findings and no failure occurs (`centralQueryFrom` is total). -/
theorem C1_escalation_iff (init : Finding) (reg : List Agent) (s pid : String) :
    ((centralQueryFrom init reg s pid).1.specialist_assessments.countP
        (fun f => f.specialty == some "EmergencyMedicine") =
      if init.needs_emergency_care.getD false && hasClass reg AgentClass.emergencyMedicine
      then 1 else 0)
    ∧ ((init.needs_emergency_care.getD false && hasClass reg AgentClass.emergencyMedicine) = true →
        ∃ ef, (centralQueryFrom init reg s pid).1.specialist_assessments =
          (queryMocks reg s).1 ++ [ef] ∧ ef.specialty = some "EmergencyMedicine")
    ∧ ((init.needs_emergency_care.getD false && hasClass reg AgentClass.emergencyMedicine) = false →
        (centralQueryFrom init reg s pid).1.specialist_assessments = (queryMocks reg s).1) := by
  have hsa : (centralQueryFrom init reg s pid).1.specialist_assessments =
      (collectAssessments init reg s).1 := rfl
  by_cases h : (init.needs_emergency_care.getD false && hasClass reg AgentClass.emergencyMedicine) = true
  · obtain ⟨a, ha, he⟩ := collectAssessments_esc init reg s h
    have hspec : ((agentQuery a s).1).specialty = some "EmergencyMedicine" :=
      agentQuery_emergency_specialty a s ha
    refine ⟨?_, fun _ => ⟨(agentQuery a s).1, by rw [hsa, he], hspec⟩, fun hfalse => ?_⟩
    · rw [hsa, he, h]
      simp [List.countP_append, countP_emergency_mocks, hspec]
    · rw [h] at hfalse
      cases hfalse
  · have h' := Bool.eq_false_iff.mpr h
    have he := collectAssessments_noesc init reg s h'
    refine ⟨?_, fun htrue => absurd htrue h, fun _ => by rw [hsa, he]⟩
    rw [hsa, he, h']
    simp [countP_emergency_mocks]

/-- Witness for C1 at concrete inputs: with the flag true and an
`EmergencyMedicineAgent` registered the escalation finding is appended, and
with it absent from the registry the list is exactly the mock findings. -/
theorem C1_escalation_iff_witness :
    (∃ ef, (centralQueryFrom { needs_emergency_care := some true } theRegistry "s" "p").1.specialist_assessments =
        (queryMocks theRegistry "s").1 ++ [ef] ∧ ef.specialty = some "EmergencyMedicine")
    ∧ ((centralQueryFrom { needs_emergency_care := some true }
          [mkAgent AgentClass.cardioBotMock ""] "s" "p").1.specialist_assessments =
        (queryMocks [mkAgent AgentClass.cardioBotMock ""] "s").1) :=
  ⟨(C1_escalation_iff { needs_emergency_care := some true } theRegistry "s" "p").2.1 (by decide),
   (C1_escalation_iff { needs_emergency_care := some true }
      [mkAgent AgentClass.cardioBotMock ""] "s" "p").2.2 (by decide)⟩

/-- C2: the specialist-assessments list built by the Coordinator has length
equal to the number of registered parallel mock specialists, plus one exactly
when escalation triggered; toggling the primary assessment's
`needs_emergency_care` flag with an `EmergencyMedicineAgent` registered
changes the length by exactly one. -/
theorem C2_list_length (init : Finding) (reg : List Agent) (s pid : String) :
    ((centralQueryFrom init reg s pid).1.specialist_assessments.length =
      reg.countP isMock +
        if init.needs_emergency_care.getD false && hasClass reg AgentClass.emergencyMedicine
        then 1 else 0)
    ∧ (hasClass reg AgentClass.emergencyMedicine = true →
        (centralQueryFrom { init with needs_emergency_care := some true }
            reg s pid).1.specialist_assessments.length =
          (centralQueryFrom { init with needs_emergency_care := some false }
            reg s pid).1.specialist_assessments.length + 1) := by
  constructor
  · exact collectAssessments_length init reg s
  · intro hc
    have h1 := collectAssessments_length { init with needs_emergency_care := some true } reg s
    have h2 := collectAssessments_length { init with needs_emergency_care := some false } reg s
    have e1 : (centralQueryFrom { init with needs_emergency_care := some true }
        reg s pid).1.specialist_assessments = (collectAssessments
        { init with needs_emergency_care := some true } reg s).1 := rfl
    have e2 : (centralQueryFrom { init with needs_emergency_care := some false }
        reg s pid).1.specialist_assessments = (collectAssessments
        { init with needs_emergency_care := some false } reg s).1 := rfl
    rw [e1, e2, h1, h2]
    simp [hc]

/-- Witness for C2 on the shipped registry: toggling the flag changes the
length by exactly one. -/
theorem C2_list_length_witness :
    (centralQueryFrom { needs_emergency_care := some true }
        theRegistry "s" "p").1.specialist_assessments.length =
      (centralQueryFrom { needs_emergency_care := some false }
        theRegistry "s" "p").1.specialist_assessments.length + 1 :=
  (C2_list_length {} theRegistry "s" "p").2 (by decide)

/-- C4: when no `GeneralPractitionerAgent` is registered, `CentralAgent.query`
fails for that request with `ValueError("No General Practitioner agent
available")` (the spec's `NoPrimaryAssessorError`), produces no Aggregate
Report, and leaves the Coordinator's state as it was (the in-flight counter
is still restored by the `finally` block). -/
theorem C4_no_gp_error (st : CentralState) (s pid : String)
    (h : hasClass st.specialist_agents AgentClass.generalPractitioner = false) :
    (centralQuery st s pid).1 = Except.error "No General Practitioner agent available"
    ∧ (centralQuery st s pid).2 = st := by
  have hq : queryFirstOfClass st.specialist_agents AgentClass.generalPractitioner s = none :=
    (queryFirstOfClass_none_iff _ _ _).mpr h
  refine ⟨by simp [centralQuery, hq], ?_⟩
  rcases st with ⟨reg, cip, tot⟩
  simp [centralQuery, hq]

/-- Witness for C4: an empty registry has no GP, the call errors and the
state is unchanged. -/
theorem C4_no_gp_error_witness :
    (centralQuery ⟨[], 0, 0⟩ "s" "p").1 = Except.error "No General Practitioner agent available"
    ∧ (centralQuery ⟨[], 0, 0⟩ "s" "p").2 = ⟨[], 0, 0⟩ :=
  C4_no_gp_error ⟨[], 0, 0⟩ "s" "p" (by decide)

/-- C5: on both exit paths of `CentralAgent.query` — the `NoPrimaryAssessor`
failure and the successful return — the `finally` block restores
`cases_in_progress` to its value before the call. -/
theorem C5_counter_restored (st : CentralState) (s pid : String) :
    (centralQuery st s pid).2.cases_in_progress = st.cases_in_progress := by
  rcases hq : queryFirstOfClass st.specialist_agents AgentClass.generalPractitioner s
    with _ | ⟨f, reg1⟩ <;>
    simp [centralQuery, hq]

/-- C7: every handler's `query` is deterministic — a second call on the same
(updated) handler instance with the same symptom text returns the same
finding, and the finding does not depend on the only hidden mutable state,
the `cases_handled` counter. -/
theorem C7_deterministic :
    (∀ (a : Agent) (s : String), (agentQuery ((agentQuery a s).2) s).1 = (agentQuery a s).1)
    ∧ (∀ (a : Agent) (s : String) (k1 k2 : Nat),
        (agentQuery { a with cases_handled := k1 } s).1 =
          (agentQuery { a with cases_handled := k2 } s).1) := by
  constructor
  · intro a s
    rcases a with ⟨c, n, k⟩
    cases c <;> rfl
  · intro a s k1 k2
    rcases a with ⟨c, n, k⟩
    cases c <;> rfl

/-- C8: each `query` call increments the called handler's own `cases_handled`
counter by exactly one and changes nothing else: the single-agent step only
bumps the counter, the fan-out loop maps exactly that bump over the mock
specialists leaving every other agent's entry untouched, and the
first-of-class lookup rewrites exactly one entry of the registry. -/
theorem C8_frame :
    (∀ (a : Agent) (s : String),
        (agentQuery a s).2 = { a with cases_handled := a.cases_handled + 1 })
    ∧ (∀ (reg : List Agent) (s : String), (queryMocks reg s).2 =
        reg.map (fun b => if isMock b then { b with cases_handled := b.cases_handled + 1 } else b))
    ∧ (∀ (reg : List Agent) (c : AgentClass) (s : String) (f : Finding) (reg' : List Agent),
        queryFirstOfClass reg c s = some (f, reg') →
        ∃ l1 a l2, reg = l1 ++ a :: l2 ∧ a.cls = c ∧
          reg' = l1 ++ { a with cases_handled := a.cases_handled + 1 } :: l2) := by
  refine ⟨agentQuery_snd, queryMocks_snd, fun reg c s f reg' h => ?_⟩
  obtain ⟨l1, a, l2, e1, e2, _, _, e5⟩ := queryFirstOfClass_some_decomp reg c s f reg' h
  exact ⟨l1, a, l2, e1, e2, e5⟩

/-- Witness for C8 at a one-agent registry: the looked-up GP entry is
rewritten to the same agent with its counter bumped. -/
theorem C8_frame_witness :
    ∃ l1 a l2, [mkAgent AgentClass.generalPractitioner "u"] = l1 ++ a :: l2 ∧
      a.cls = AgentClass.generalPractitioner ∧
      [(⟨AgentClass.generalPractitioner, "generalpractitioner-u", 1⟩ : Agent)] =
        l1 ++ { a with cases_handled := a.cases_handled + 1 } :: l2 :=
  C8_frame.2.2 [mkAgent AgentClass.generalPractitioner "u"] AgentClass.generalPractitioner "x"
    { agent_name := some "generalpractitioner-u",
      specialty := some "GeneralPractitioner",
      hypothesis := some "Initial assessment in progress",
      confidence := some "0.0",
      details := some "Analyzing reported symptoms",
      recommended_actions := some ["Await specialist consultation"],
      needs_emergency_care := some false }
    [⟨AgentClass.generalPractitioner, "generalpractitioner-u", 1⟩] (by decide)

/-- C3: the Aggregator's triage recommendation is the elevated
cardiac-concern string exactly when some finding named `"CardioBotMock"`
contains `"chest pain"` case-insensitively in its hypothesis (lowering both
sides; the needle is already lowercase), and the default human-review string
otherwise (the two strings differ); and on the shipped registry the symptom
text `"severe chest pain and shortness of breath"` yields a `CardioBotMock`
finding whose hypothesis contains `"chest pain"` and the elevated triage
string in the final report. -/
theorem C3_triage_rule :
    (∀ (s pid : String) (fs : List Finding),
      (synthesize_findings s fs pid).triage_recommendation_mock =
        if fs.any (fun f => f.agent_name == some "CardioBotMock" &&
            strContains (strLower (f.hypothesis.getD "")) (strLower "chest pain")) then
          "Mock Triage: Potential cardiac concern noted. Prioritize human review."
        else "Mock Triage: Review by a human telemedicine provider is recommended.")
    ∧ ("Mock Triage: Potential cardiac concern noted. Prioritize human review." ≠
        "Mock Triage: Review by a human telemedicine provider is recommended.")
    ∧ ((centralQuery ⟨theRegistry, 0, 0⟩ "severe chest pain and shortness of breath"
          "case-1").1.toOption.map
        (fun r => r.specialist_assessments.any (fun f =>
          f.agent_name == some "CardioBotMock" &&
          strContains (f.hypothesis.getD "") "chest pain")) = some true)
    ∧ ((centralQuery ⟨theRegistry, 0, 0⟩ "severe chest pain and shortness of breath"
          "case-1").1.toOption.map (fun r => r.synthesis.triage_recommendation_mock) =
        some "Mock Triage: Potential cardiac concern noted. Prioritize human review.") := by
  refine ⟨fun s pid fs => ?_, by decide, by decide, by decide⟩
  have h : strLower "chest pain" = "chest pain" := rfl
  rw [h]
  rfl

/-- C9: with an empty specialist-findings list the overall summary is the
header plus the explicit no-reports line (and nothing else); with a non-empty
list it is the header plus one `findingBlock` per finding; each block prints
the finding's `confidence`, falling back to `confidence_mock` when
`confidence` is absent, and to `"N/A"` when both are absent. -/
theorem C9_summary_shape :
    (∀ s pid : String, (synthesize_findings s [] pid).overall_summary =
      "Central Reasoning Mock Summary for Patient ID: " ++ pid ++
      "\nOriginal Symptoms: " ++ s ++
      "\n\n--- Specialist Agent Reports ---\nNo specialist agent reports were provided.")
    ∧ (∀ (s pid : String) (fs : List Finding), fs ≠ [] →
        (synthesize_findings s fs pid).overall_summary =
          "Central Reasoning Mock Summary for Patient ID: " ++ pid ++
          "\nOriginal Symptoms: " ++ s ++
          "\n\n--- Specialist Agent Reports ---\n" ++ strJoin "\n" (fs.map findingBlock))
    ∧ (∀ (f : Finding) (c : String), f.confidence = some c → ∃ pre post,
        findingBlock f = pre ++ ("\n  Confidence: " ++ c ++ "\n") ++ post)
    ∧ (∀ (f : Finding) (m : String), f.confidence = none → f.confidence_mock = some m →
        ∃ pre post, findingBlock f = pre ++ ("\n  Confidence: " ++ m ++ "\n") ++ post)
    ∧ (∀ f : Finding, f.confidence = none → f.confidence_mock = none →
        ∃ pre post, findingBlock f = pre ++ ("\n  Confidence: " ++ "N/A" ++ "\n") ++ post) := by
  refine ⟨fun s pid => ?_, fun s pid fs hfs => ?_, fun f c hc => ?_, fun f m hc hm => ?_,
    fun f hc hm => ?_⟩
  · apply strExt
    simp [synthesize_findings, strJoin, strData_append, List.append_assoc]
  · apply strExt
    have hb : fs.map findingBlock ≠ [] := by simpa using hfs
    rcases hfs2 : fs.map findingBlock with _ | ⟨b, bs⟩
    · exact absurd hfs2 hb
    · have hiseq : fs.isEmpty = false := by
        cases fs
        · exact absurd rfl hfs
        · rfl
      simp only [synthesize_findings, hiseq, Bool.false_eq_true, if_false, hfs2]
      simp [strJoin, strData_append, List.append_assoc]
  · refine ⟨"\nReport from " ++ f.agent_name.getD "UnknownAgent" ++ ":\n  Hypothesis: " ++
      f.hypothesis.getD "No hypothesis provided.", "  Details: " ++ f.details.getD "", ?_⟩
    apply strExt
    simp [findingBlock, hc, strData_append, List.append_assoc]
  · refine ⟨"\nReport from " ++ f.agent_name.getD "UnknownAgent" ++ ":\n  Hypothesis: " ++
      f.hypothesis.getD "No hypothesis provided.", "  Details: " ++ f.details.getD "", ?_⟩
    apply strExt
    simp [findingBlock, hc, hm, strData_append, List.append_assoc]
  · refine ⟨"\nReport from " ++ f.agent_name.getD "UnknownAgent" ++ ":\n  Hypothesis: " ++
      f.hypothesis.getD "No hypothesis provided.", "  Details: " ++ f.details.getD "", ?_⟩
    apply strExt
    simp [findingBlock, hc, hm, strData_append, List.append_assoc]

/-- Witness for C9 at concrete findings: a non-empty list takes the
per-block shape, and the three confidence fallbacks print as claimed. -/
theorem C9_summary_shape_witness :
    ((synthesize_findings "s" [{ confidence := some "0.3" }] "p").overall_summary =
      "Central Reasoning Mock Summary for Patient ID: " ++ "p" ++
      "\nOriginal Symptoms: " ++ "s" ++
      "\n\n--- Specialist Agent Reports ---\n" ++
      strJoin "\n" ([{ confidence := some "0.3" }].map findingBlock))
    ∧ (∃ pre post, findingBlock { confidence := some "0.3" } =
        pre ++ ("\n  Confidence: " ++ "0.3" ++ "\n") ++ post)
    ∧ (∃ pre post, findingBlock { confidence_mock := some "0.1" } =
        pre ++ ("\n  Confidence: " ++ "0.1" ++ "\n") ++ post)
    ∧ (∃ pre post, findingBlock {} =
        pre ++ ("\n  Confidence: " ++ "N/A" ++ "\n") ++ post) :=
  ⟨C9_summary_shape.2.1 "s" "p" [{ confidence := some "0.3" }] (by decide),
   C9_summary_shape.2.2.1 { confidence := some "0.3" } "0.3" rfl,
   C9_summary_shape.2.2.2.1 { confidence_mock := some "0.1" } "0.1" rfl rfl,
   C9_summary_shape.2.2.2.2 {} rfl rfl⟩

/-- C10: `GeneralPractitionerAgent.query` returns `needs_emergency_care =
False` for every symptom text, so on every successful request — whatever the
registry and inputs — the escalation branch is never taken: the report's
initial assessment carries the flag false and its specialist-assessments list
contains no `EmergencyMedicineAgent` finding. -/
theorem C10_no_escalation_shipped :
    (∀ (n : String) (k : Nat) (s : String),
      (agentQuery ⟨AgentClass.generalPractitioner, n, k⟩ s).1.needs_emergency_care = some false)
    ∧ (∀ (st : CentralState) (s pid : String),
        ((centralQuery st s pid).1.toOption.map (fun r =>
          (r.specialist_assessments.countP
            (fun f => f.specialty == some "EmergencyMedicine") == 0) &&
          (r.initial_assessment.needs_emergency_care == some false))).getD true = true) := by
  refine ⟨fun n k s => rfl, fun st s pid => ?_⟩
  rcases hq : queryFirstOfClass st.specialist_agents AgentClass.generalPractitioner s
    with _ | ⟨f, reg1⟩
  · simp [centralQuery, hq, Except.toOption]
  · obtain ⟨l1, a, l2, _, ha, _, hf, _⟩ := queryFirstOfClass_some_decomp _ _ _ _ _ hq
    have hflag : f.needs_emergency_care = some false := by
      rw [hf]
      exact agentQuery_gp_flag a s ha
    have hfl2 : (f.needs_emergency_care.getD false && hasClass reg1 AgentClass.emergencyMedicine)
        = false := by
      rw [hflag]
      rfl
    have hsa : (centralQueryFrom f reg1 s pid).1.specialist_assessments =
        (queryMocks reg1 s).1 := collectAssessments_noesc f reg1 s hfl2
    have hinit : (centralQueryFrom f reg1 s pid).1.initial_assessment = f := rfl
    simp [centralQuery, hq, Except.toOption, hsa, hinit, countP_emergency_mocks, hflag]

/-- C6 divergence: registering a handler whose identifier collides with an
already-registered handler's identifier does not fail — the source,
`self.specialist_agents[specialist.agent_name] = specialist`, silently
overwrites the entry.  Concretely: after a `CardioBotMock` has handled one
case, registering `CardioBotMock` again replaces it with a fresh instance
whose `cases_handled` counter is 0, erasing the previous handler's state, and
no error of any kind is raised (no `DuplicateHandlerError` exists in the
source). -/
theorem C6_duplicate_overwrites :
    (queryMocks (registerSpecialist [] AgentClass.cardioBotMock "") "s").2 =
      [⟨AgentClass.cardioBotMock, "CardioBotMock", 1⟩]
    ∧ registerSpecialist (queryMocks (registerSpecialist [] AgentClass.cardioBotMock "") "s").2
        AgentClass.cardioBotMock "" = [⟨AgentClass.cardioBotMock, "CardioBotMock", 0⟩] :=
  ⟨by decide, by decide⟩

end AutoMedAI
